import Mathlib

/-!
Shallow embedding of the aiXiv backend core (pipeline orchestrator, paper
lifecycle state machine, arena promotion, decision-record audit log), translated
from `backend/orchestrator.py`, `backend/arena.py` and
`backend/rail/decision_record.py`.

Conventions of the embedding:
* The SQLite store is a record of append-only row lists (`DB`); `UPDATE ... WHERE
  paper_id = ?` becomes a `List.map` over the `papers` list, `INSERT` becomes an
  append, `SELECT ... fetchone` becomes `List.find?`, `SELECT ... fetchall`
  becomes `List.filter` (SQLite returns rows of these unindexed single-table
  queries in rowid, i.e. insertion, order).
* Numbers (scores, confidences) are exact rationals `ℚ`; Python's
  `round(x, 2)` is modelled by `round2` (round half to even, as Python does).
* Timestamps (`datetime.utcnow().isoformat()`, `time.time()`) and content
  hashes (`hashlib.sha256`) are environment inputs: they are passed in as a
  `now : String` argument and a `hash : String → String` argument.
* LLM stage adapters (`review_paper`, `redteam_paper`, `meta_review`, the
  ideation/writing agents, `generate_revisions`) are external collaborators;
  each is passed in as an `Except Unit α` argument: `.ok r` models the adapter
  returning `r`, `.error ()` models the adapter raising.
* A Python function that raises is modelled as returning the store mutated so
  far paired with an `Except` error (the raised exception does not roll back
  already-committed writes).
* Dict payload fields that the orchestrator only passes through (e.g. JSON-dumped
  `findings` lists) are carried as opaque `String`s; dict-key fallbacks such as
  `flat.get("maturity_level", "L0")` vanish because the adapter result types
  are total records.
-/

namespace AiXiv

/-- A row of the `papers` table (see `database.py` schema). -/
structure Paper where
  paper_id : String
  title : String
  authors : String
  affiliation : String
  abstract : String
  keywords : String
  categories : String
  full_text : String
  pdf_path : String
  tex_path : String
  status : String
  maturity_level : String
  version : Nat
  created_at : String
  updated_at : String
deriving Repr, DecidableEq

/-- A row of the `reviews` table, as inserted by `run_full_review` step 1. -/
structure Review where
  paper_id : String
  reviewer_type : String
  review_layer : String
  overall_score : ℚ
  soundness : ℚ
  novelty : ℚ
  clarity : ℚ
  significance : ℚ
  reproducibility : ℚ
  summary : String
  strengths : String
  weaknesses : String
  questions : String
  recommendation : String
  detailed_feedback : String
  maturity_level : String
  gate_analysis : String
  raw_review : String
  created_at : String
deriving Repr, DecidableEq

/-- A row of the `redteam_reports` table. -/
structure RedteamReport where
  paper_id : String
  overall_risk : String
  confidence : ℚ
  findings : String
  attack_scenarios : String
  summary : String
  raw_report : String
  created_at : String
deriving Repr, DecidableEq

/-- A row of the `meta_reviews` table. -/
structure MetaReviewRow where
  paper_id : String
  final_recommendation : String
  confidence : ℚ
  justification : String
  maturity_level : String
  required_changes : String
  suggested_changes : String
  summary_for_authors : String
  arena_eligible : Nat
  arena_eligibility_reason : String
  raw_review : String
  created_at : String
deriving Repr, DecidableEq

/-- A row of the `eval_results` table (one Rail scenario score). -/
structure EvalRow where
  paper_id : String
  scenario : String
  score : ℚ
  assessment : String
  gaps : String
  created_at : String
deriving Repr, DecidableEq

/-- A row of the `arena_papers` projection table (keyed by `paper_id`,
`INSERT OR REPLACE` target of `promote_paper`). `badges` is kept as the
structured list that `promote_paper` JSON-dumps into the column. -/
structure ArenaPaper where
  paper_id : String
  title : String
  authors : String
  abstract : String
  categories : String
  pdf_path : String
  review_score : ℚ
  maturity_level : String
  rail_compliant : Nat
  review_count : Nat
  badges : List String
  promoted_at : String
deriving Repr, DecidableEq

/-- One decision-record dict as built by `record_decision`
(`rail/decision_record.py`).  The sha256-derived `id` and `prompt_hash` are
computed from the environment-supplied `hash` function; the numeric epoch
timestamp is subsumed by the environment-supplied time string `iso_time`. -/
structure DecisionRecord where
  id : String
  paper_id : String
  action_type : String
  model_used : String
  prompt_hash : String
  input_summary : String
  output_summary : String
  iso_time : String
deriving Repr, DecidableEq

/-- One physical line of a per-paper `.jsonl` audit-log file: either a line that
parses back to the record it serializes (`json.dumps` / `json.loads` round-trip)
or a corrupted / blank line that `json.loads` rejects. -/
inductive LogLine where
  | ok (r : DecisionRecord)
  | corrupt (s : String)
deriving Repr, DecidableEq

/-- The decision-log directory: an append-only sequence of (file-key, line)
pairs, file-key being `safeId paper_id` (one logical `.jsonl` file per paper). -/
abbrev LogStore := List (String × LogLine)

/-- The persistent store: the SQLite tables plus the decision-log directory. -/
structure DB where
  papers : List Paper
  reviews : List Review
  redteam_reports : List RedteamReport
  meta_reviews : List MetaReviewRow
  eval_results : List EvalRow
  arena_papers : List ArenaPaper
  dlogs : LogStore
deriving Repr, DecidableEq

/-! ## Lifecycle state machine (`orchestrator.py`) -/

/-- The `STATES` list of `orchestrator.py`. -/
def STATES : List String :=
  ["submitted", "under_review", "revision", "re_review",
   "accepted", "published_arena", "rejected"]

/-- Source dict `VALID_TRANSITIONS`, as the total function
`VALID_TRANSITIONS.get(current, [])` used by `transition_paper`. -/
def VALID_TRANSITIONS (current : String) : List String :=
  if current = "submitted" then ["under_review"]
  else if current = "under_review" then ["revision", "accepted", "rejected"]
  else if current = "revision" then ["re_review"]
  else if current = "re_review" then ["revision", "accepted", "rejected"]
  else if current = "accepted" then ["published_arena"]
  else if current = "published_arena" then []
  else if current = "rejected" then ["revision"]
  else []

/-- Query `SELECT * FROM papers WHERE paper_id = ? ... fetchone()`. -/
def findPaper (db : DB) (pid : String) : Option Paper :=
  db.papers.find? (fun p => p.paper_id == pid)

/-- Statement `UPDATE papers SET status = ?, updated_at = ? WHERE paper_id = ?`. -/
def setStatus (db : DB) (pid status now : String) : DB :=
  { db with papers := db.papers.map (fun p =>
      if p.paper_id == pid then { p with status := status, updated_at := now } else p) }

/-- Statement `UPDATE papers SET maturity_level = ?, status = ?, updated_at = ?
WHERE paper_id = ?` (the single final update of `run_full_review`). -/
def setMaturityStatus (db : DB) (pid maturity status now : String) : DB :=
  { db with papers := db.papers.map (fun p =>
      if p.paper_id == pid then
        { p with maturity_level := maturity, status := status, updated_at := now }
      else p) }

/-- Errors raised by `transition_paper` (`ValueError(f"Paper .. not found")`
and `ValueError(f"Invalid transition: ..")`). -/
inductive TransErr where
  | notFound
  | invalidTransition (current next : String)
deriving Repr, DecidableEq

/-- Function `transition_paper(paper_id, new_status)`: fetch the paper, reject an
unknown id, reject a destination not in `VALID_TRANSITIONS[current]`, otherwise
persist the new status with a fresh `updated_at`.  The first component is the
store after the call (unchanged on both failure paths, which raise before any
write). -/
def transition_paper (pid newStatus now : String) (db : DB) :
    DB × Except TransErr String :=
  match findPaper db pid with
  | none => (db, .error .notFound)
  | some paper =>
    if newStatus ∈ VALID_TRANSITIONS paper.status then
      (setStatus db pid newStatus now, .ok newStatus)
    else
      (db, .error (.invalidTransition paper.status newStatus))

/-! ## Basic lemmas about the store -/

theorem find_map_update (l : List Paper) (pid : String) (f : Paper → Paper)
    (hf : ∀ p, (f p).paper_id = p.paper_id) :
    (l.map (fun p => if p.paper_id == pid then f p else p)).find?
        (fun p => p.paper_id == pid)
      = (l.find? (fun p => p.paper_id == pid)).map f := by
  induction l with
  | nil => simp
  | cons a l ih =>
    simp only [List.map_cons, List.find?_cons]
    by_cases h : a.paper_id = pid
    · have hb : (a.paper_id == pid) = true := by simpa using h
      have hb' : ((f a).paper_id == pid) = true := by simp [hf, h]
      simp only [hb, hb', if_true, cond_true]
      simp [hb]
    · have hb : (a.paper_id == pid) = false := by simpa using h
      simp only [hb, Bool.false_eq_true, if_false, cond_false]
      simpa [hb] using ih

theorem findPaper_setStatus (db : DB) (pid status now : String) :
    findPaper (setStatus db pid status now) pid
      = (findPaper db pid).map (fun p => { p with status := status, updated_at := now }) := by
  unfold findPaper setStatus
  exact find_map_update _ _ _ (fun _ => rfl)

theorem findPaper_setMaturityStatus (db : DB) (pid maturity status now : String) :
    findPaper (setMaturityStatus db pid maturity status now) pid
      = (findPaper db pid).map (fun p =>
          { p with maturity_level := maturity, status := status, updated_at := now }) := by
  unfold findPaper setMaturityStatus
  exact find_map_update _ _ _ (fun _ => rfl)

/-! ## C1 / C10: the transition guard -/

/-- C1. Calling `transition_paper` on an unknown id fails with the not-found error; on a
known paper it fails with the invalid-transition error exactly when the
requested status is not an allowed destination of the current status, and
otherwise succeeds and persists the new status together with the fresh
`updated_at` timestamp. -/
theorem transition_paper_correct (db : DB) (pid X now : String) :
    (findPaper db pid = none →
      transition_paper pid X now db = (db, Except.error TransErr.notFound)) ∧
    (∀ p, findPaper db pid = some p →
      (X ∉ VALID_TRANSITIONS p.status →
        transition_paper pid X now db
          = (db, Except.error (TransErr.invalidTransition p.status X))) ∧
      (X ∈ VALID_TRANSITIONS p.status →
        (transition_paper pid X now db).2 = Except.ok X ∧
        findPaper (transition_paper pid X now db).1 pid
          = some { p with status := X, updated_at := now })) := by
  refine ⟨fun h => by simp [transition_paper, h], fun p hp => ⟨fun hx => ?_, fun hx => ?_⟩⟩
  · simp [transition_paper, hp, hx]
  · simp [transition_paper, hp, hx, findPaper_setStatus]

def samplePaper (pid status : String) : Paper :=
  { paper_id := pid, title := "T", authors := "A", affiliation := "",
    abstract := "B", keywords := "", categories := "", full_text := "",
    pdf_path := "", tex_path := "", status := status, maturity_level := "L0",
    version := 1, created_at := "t0", updated_at := "t0" }

def emptyDB : DB :=
  { papers := [], reviews := [], redteam_reports := [], meta_reviews := [],
    eval_results := [], arena_papers := [], dlogs := [] }

def dbOnePaper (status : String) : DB :=
  { emptyDB with papers := [samplePaper "p1" status] }

/-- Witness for C1 at a concrete store: a legal transition succeeds and
persists, an illegal one and an unknown id fail. -/
theorem transition_paper_correct_w :
    (transition_paper "p1" "under_review" "t1" (dbOnePaper "submitted")).2
        = Except.ok "under_review" ∧
    transition_paper "p1" "accepted" "t1" (dbOnePaper "submitted")
        = (dbOnePaper "submitted",
           Except.error (TransErr.invalidTransition "submitted" "accepted")) ∧
    transition_paper "p2" "under_review" "t1" (dbOnePaper "submitted")
        = (dbOnePaper "submitted", Except.error TransErr.notFound) := by
  have h := transition_paper_correct (dbOnePaper "submitted") "p1" "under_review" "t1"
  have h2 := transition_paper_correct (dbOnePaper "submitted") "p1" "accepted" "t1"
  have h3 := transition_paper_correct (dbOnePaper "submitted") "p2" "under_review" "t1"
  refine ⟨((h.2 (samplePaper "p1" "submitted") (by decide)).2 (by decide)).1,
          (h2.2 (samplePaper "p1" "submitted") (by decide)).1 (by decide),
          h3.1 (by decide)⟩

/-- C10. Whenever `transition_paper` fails — unknown id or disallowed
destination — the returned store is exactly the input store: no row was
written, so every paper's status and updated-at timestamp are untouched. -/
theorem transition_paper_no_write (db : DB) (pid X now : String)
    (h : findPaper db pid = none ∨
         ∃ p, findPaper db pid = some p ∧ X ∉ VALID_TRANSITIONS p.status) :
    (transition_paper pid X now db).1 = db ∧
    ∃ e, (transition_paper pid X now db).2 = Except.error e := by
  rcases h with h | ⟨p, hp, hx⟩
  · simp [transition_paper, h]
  · simp [transition_paper, hp, hx]

/-- Witness for C10: both failure modes leave the concrete store untouched. -/
theorem transition_paper_no_write_w :
    (transition_paper "p1" "re_review" "t1" (dbOnePaper "under_review")).1
        = dbOnePaper "under_review" ∧
    (transition_paper "nope" "revision" "t1" (dbOnePaper "under_review")).1
        = dbOnePaper "under_review" := by
  refine ⟨(transition_paper_no_write (dbOnePaper "under_review") "p1" "re_review" "t1"
            (Or.inr ⟨samplePaper "p1" "under_review", by decide, by decide⟩)).1,
          (transition_paper_no_write (dbOnePaper "under_review") "nope" "revision" "t1"
            (Or.inl (by decide))).1⟩

/-! ## Decision recorder (`rail/decision_record.py`) -/

/-- Key `paper_id.replace(":", "_").replace(".", "_")` — the per-paper log-file name. -/
def safeId (pid : String) : String :=
  (pid.replace ":" "_").replace "." "_"

/-- The record dict built by `record_decision`: sha256-derived 16-char id and
prompt hash, summaries truncated to 1000 characters. -/
def mkDecisionRecord (hash : String → String) (ts pid action model prompt inp out : String) :
    DecisionRecord :=
  { id := (hash (pid ++ action ++ ts)).take 16
    paper_id := pid
    action_type := action
    model_used := model
    prompt_hash := (hash prompt).take 16
    input_summary := inp.take 1000
    output_summary := out.take 1000
    iso_time := ts }

/-- Function `record_decision`: build the record and append one line to the per-paper
log file; returns the grown store and the record. -/
def record_decision (hash : String → String) (ts pid action model prompt inp out : String)
    (store : LogStore) : LogStore × DecisionRecord :=
  let r := mkDecisionRecord hash ts pid action model prompt inp out
  (store ++ [(safeId pid, LogLine.ok r)], r)

/-- Parse (`json.loads`) of one stripped line: a well-formed line yields its record, a
corrupt (or blank) line is skipped via the `except JSONDecodeError: continue`. -/
def parseLine : LogLine → Option DecisionRecord
  | .ok r => some r
  | .corrupt _ => none

/-- Function `get_decisions(paper_id)`: replay the paper's log file in write order,
skipping lines that fail to parse. -/
def get_decisions (store : LogStore) (pid : String) : List DecisionRecord :=
  store.filterMap (fun kv => if kv.1 == safeId pid then parseLine kv.2 else none)

/-- The arguments of one `record_decision` call (minus the paper id). -/
structure CallArgs where
  ts : String
  action : String
  model : String
  prompt : String
  inp : String
  out : String
deriving Repr, DecidableEq

/-- N successive `record_decision` calls for one paper id. -/
def applyRecords (hash : String → String) (pid : String) (calls : List CallArgs)
    (store : LogStore) : LogStore :=
  calls.foldl
    (fun s c => (record_decision hash c.ts pid c.action c.model c.prompt c.inp c.out s).1)
    store

theorem get_decisions_append (s t : LogStore) (pid : String) :
    get_decisions (s ++ t) pid = get_decisions s pid ++ get_decisions t pid := by
  simp [get_decisions]

theorem get_decisions_applyRecords (hash : String → String) (pid : String)
    (calls : List CallArgs) (store : LogStore) :
    get_decisions (applyRecords hash pid calls store) pid
      = get_decisions store pid
        ++ calls.map (fun c =>
              mkDecisionRecord hash c.ts pid c.action c.model c.prompt c.inp c.out) := by
  induction calls generalizing store with
  | nil => simp [applyRecords]
  | cons c cs ih =>
    simp only [applyRecords, List.foldl_cons, List.map_cons]
    rw [show (List.foldl _ _ _ : LogStore) = applyRecords hash pid cs
          ((record_decision hash c.ts pid c.action c.model c.prompt c.inp c.out store).1)
        from rfl, ih]
    simp [record_decision, get_decisions_append, get_decisions, parseLine]

/-- C6. Starting from a store with no readable entries for the paper, N
`record_decision` calls make `get_decisions` return exactly the N records, in
call order; and if the underlying log additionally ends with a corrupted
trailing line, `get_decisions` still returns exactly those N records. -/
theorem record_then_get (hash : String → String) (pid : String)
    (calls : List CallArgs) (store : LogStore)
    (h : get_decisions store pid = []) :
    get_decisions (applyRecords hash pid calls store) pid
      = calls.map (fun c =>
          mkDecisionRecord hash c.ts pid c.action c.model c.prompt c.inp c.out) ∧
    ∀ junk, get_decisions
        (applyRecords hash pid calls store ++ [(safeId pid, LogLine.corrupt junk)]) pid
      = calls.map (fun c =>
          mkDecisionRecord hash c.ts pid c.action c.model c.prompt c.inp c.out) := by
  constructor
  · rw [get_decisions_applyRecords, h]
    simp
  · intro junk
    rw [get_decisions_append, get_decisions_applyRecords, h]
    simp [get_decisions, parseLine]

/-- Witness for C6: two concrete calls on an empty store, then a corrupt line. -/
theorem record_then_get_w :
    get_decisions
        (applyRecords (fun s => s) "aiXiv:2501.001"
          [⟨"t1", "peer_review", "m", "", "in1", "out1"⟩,
           ⟨"t2", "redteam", "m", "", "in2", "out2"⟩] []
          ++ [(safeId "aiXiv:2501.001", LogLine.corrupt "not json")])
        "aiXiv:2501.001"
      = [mkDecisionRecord (fun s => s) "t1" "aiXiv:2501.001" "peer_review" "m" "" "in1" "out1",
         mkDecisionRecord (fun s => s) "t2" "aiXiv:2501.001" "redteam" "m" "" "in2" "out2"] := by
  exact (record_then_get (fun s => s) "aiXiv:2501.001"
    [⟨"t1", "peer_review", "m", "", "in1", "out1"⟩,
     ⟨"t2", "redteam", "m", "", "in2", "out2"⟩] [] (by simp [get_decisions])).2 "not json"

/-! ## Arena scoring, badges and promotion (`arena.py`) -/

/-- The `MATURITY_BONUS` dict, as the total function
`MATURITY_BONUS.get(maturity_level, 0)` used by `compute_composite_score`. -/
def MATURITY_BONUS (level : String) : ℚ :=
  if level = "L0" then 0
  else if level = "L1" then 1/2
  else if level = "L2" then 1
  else if level = "L3" then 3/2
  else if level = "L4" then 2
  else if level = "L5" then 5/2
  else 0

/-- Round a rational to the nearest integer, ties to the even neighbour
(Python 3 `round` semantics). -/
def roundHalfEven (q : ℚ) : ℤ :=
  let f := ⌊q⌋
  if q - f < 1/2 then f
  else if 1/2 < q - f then f + 1
  else if f % 2 = 0 then f else f + 1

/-- Model of Python's `round(x, 2)`. -/
def round2 (q : ℚ) : ℚ :=
  (roundHalfEven (q * 100) : ℚ) / 100

/-- Function `compute_composite_score(reviews, maturity_level)`: 0 for no reviews, else
the mean of the reviews' overall scores plus the maturity bonus, rounded to two
decimal places. -/
def compute_composite_score (reviews : List Review) (maturity_level : String) : ℚ :=
  if reviews.isEmpty then 0
  else
    round2 ((reviews.map (fun r => r.overall_score)).sum / (reviews.length : ℚ)
            + MATURITY_BONUS maturity_level)

/-- The `BADGE_RULES` dict in insertion order.  Python truthiness of the
`redteam and ...` / `evals and ...` / `reviews and ...` guards is made explicit
(`none` and the empty list are falsy). -/
def BADGE_RULES :
    List (String × (Paper → List Review → Option RedteamReport → List EvalRow → Bool)) :=
  [("L3 Certified", fun paper _ _ _ =>
      paper.maturity_level == "L3" || paper.maturity_level == "L4"
        || paper.maturity_level == "L5"),
   ("L4 Certified", fun paper _ _ _ =>
      paper.maturity_level == "L4" || paper.maturity_level == "L5"),
   ("L5 Certified", fun paper _ _ _ => paper.maturity_level == "L5"),
   ("Red-Team Cleared", fun _ _ redteam _ =>
      match redteam with
      | some rt => rt.overall_risk == "low"
      | none => false),
   ("Rail Compliant", fun _ _ _ evals =>
      !evals.isEmpty && evals.all (fun e => decide (5 ≤ e.score))),
   ("High Soundness", fun _ reviews _ _ =>
      !reviews.isEmpty && reviews.any (fun r => decide (4 ≤ r.soundness))),
   ("High Novelty", fun _ reviews _ _ =>
      !reviews.isEmpty && reviews.any (fun r => decide (4 ≤ r.novelty)))]

/-- Function `compute_badges`: the names of the rules that fire, in rule order.  (The
source's `except (KeyError, TypeError): continue` cannot fire in the typed
model, where every row field is present and non-null.) -/
def compute_badges (paper : Paper) (reviews : List Review)
    (redteam : Option RedteamReport) (evals : List EvalRow) : List String :=
  (BADGE_RULES.filter (fun rule => rule.2 paper reviews redteam evals)).map
    (fun rule => rule.1)

/-- Errors raised by `promote_paper` (`ValueError(f"Paper .. not found")` and
`ValueError("Paper must be reviewed before promotion")`). -/
inductive PromoteErr where
  | notFound
  | preconditionFailed
deriving Repr, DecidableEq

/-- The dict `promote_paper` returns. -/
structure PromotionResult where
  paper_id : String
  review_score : ℚ
  maturity_level : String
  badges : List String
  rail_compliant : Bool
  review_count : Nat
deriving Repr, DecidableEq

/-- Query `SELECT * FROM redteam_reports WHERE paper_id = ? ORDER BY created_at DESC
LIMIT 1`: the most recent report.  Reports are inserted with non-decreasing
timestamps, so the latest is the last inserted row for the paper. -/
def latestRedteam (db : DB) (pid : String) : Option RedteamReport :=
  (db.redteam_reports.filter (fun r => r.paper_id == pid)).getLast?

/-- Statement `INSERT OR REPLACE INTO arena_papers ...` keyed by the unique `paper_id`:
replace the existing projection row, else append a new one. -/
def upsertArena (db : DB) (row : ArenaPaper) : DB :=
  if db.arena_papers.any (fun a => a.paper_id == row.paper_id) then
    { db with arena_papers := db.arena_papers.map (fun a =>
        if a.paper_id == row.paper_id then row else a) }
  else
    { db with arena_papers := db.arena_papers ++ [row] }

/-- Function `promote_paper(paper_id)`: reject an unknown id; reject a paper with zero
review rows; otherwise compute composite score and badges, upsert the arena
projection row and set the paper's status to `published_arena`.  The first
component is the store after the call (unchanged on both failure paths, which
raise before any write). -/
def promote_paper (pid now : String) (db : DB) : DB × Except PromoteErr PromotionResult :=
  match findPaper db pid with
  | none => (db, .error .notFound)
  | some paper =>
    let reviews := db.reviews.filter (fun r => r.paper_id == pid)
    if reviews.isEmpty then (db, .error .preconditionFailed)
    else
      let redteam := latestRedteam db pid
      let evals := db.eval_results.filter (fun e => e.paper_id == pid)
      let maturity := if paper.maturity_level = "" then "L0" else paper.maturity_level
      let composite_score := compute_composite_score reviews maturity
      let badges := compute_badges paper reviews redteam evals
      let rail_compliant := "Rail Compliant" ∈ badges
      let db := upsertArena db
        { paper_id := pid, title := paper.title, authors := paper.authors,
          abstract := paper.abstract, categories := paper.categories,
          pdf_path := paper.pdf_path, review_score := composite_score,
          maturity_level := maturity,
          rail_compliant := if rail_compliant then 1 else 0,
          review_count := reviews.length, badges := badges, promoted_at := now }
      let db := setStatus db pid "published_arena" now
      (db, .ok { paper_id := pid, review_score := composite_score,
                 maturity_level := maturity, badges := badges,
                 rail_compliant := rail_compliant, review_count := reviews.length })

/-! ## C5: promotion precondition -/

/-- C5. Calling `promote_paper` on an existing paper with zero review rows fails with
the precondition error, writes no arena projection row and leaves the paper's
status (and the whole store) unchanged. -/
theorem promote_paper_precondition (db : DB) (pid now : String) (paper : Paper)
    (h : findPaper db pid = some paper)
    (hr : db.reviews.filter (fun r => r.paper_id == pid) = []) :
    promote_paper pid now db = (db, Except.error PromoteErr.preconditionFailed) ∧
    (promote_paper pid now db).1.arena_papers = db.arena_papers ∧
    findPaper (promote_paper pid now db).1 pid = some paper := by
  have : (db.reviews.filter (fun r => r.paper_id == pid)).isEmpty = true := by
    simp [hr]
  refine ⟨?_, ?_, ?_⟩ <;> simp [promote_paper, h, this]

/-- Witness for C5 at a concrete store with one paper and no reviews. -/
theorem promote_paper_precondition_w :
    promote_paper "p1" "t9" (dbOnePaper "accepted")
      = (dbOnePaper "accepted", Except.error PromoteErr.preconditionFailed) := by
  exact (promote_paper_precondition (dbOnePaper "accepted") "p1" "t9"
    (samplePaper "p1" "accepted") (by decide) (by decide)).1

/-! ## C7: composite score -/

def sampleReview (pid : String) (score : ℚ) : Review :=
  { paper_id := pid, reviewer_type := "ai", review_layer := "full",
    overall_score := score, soundness := 3, novelty := 3, clarity := 3,
    significance := 3, reproducibility := 3, summary := "s", strengths := "",
    weaknesses := "", questions := "", recommendation := "minor_revision",
    detailed_feedback := "", maturity_level := "L2", gate_analysis := "",
    raw_review := "", created_at := "t" }

/-- Counterexample to C7 as stated: the composite score is not in general equal
to `mean + bonus`, because the source rounds the result to two decimal places.
With overall scores `[1, 1, 2]` and maturity `L0` the code stores `1.33`,
whereas `mean + bonus = 4/3 = 1.333...`. -/
theorem compute_composite_score_not_exact_mean :
    compute_composite_score
        [sampleReview "p1" 1, sampleReview "p1" 1, sampleReview "p1" 2] "L0"
      ≠ ((sampleReview "p1" 1).overall_score + (sampleReview "p1" 1).overall_score
          + (sampleReview "p1" 2).overall_score) / 3 + MATURITY_BONUS "L0" := by
  have hv : compute_composite_score
      [sampleReview "p1" 1, sampleReview "p1" 1, sampleReview "p1" 2] "L0" = 133/100 := by
    unfold compute_composite_score
    rw [if_neg (by simp)]
    have harg : (List.map (fun r => r.overall_score)
          [sampleReview "p1" 1, sampleReview "p1" 1, sampleReview "p1" 2]).sum
            / (([sampleReview "p1" 1, sampleReview "p1" 1, sampleReview "p1" 2].length : ℕ) : ℚ)
          + MATURITY_BONUS "L0" = 4/3 := by
      simp only [sampleReview, MATURITY_BONUS, String.reduceEq, reduceIte,
        List.map_cons, List.map_nil, List.sum_cons, List.sum_nil, List.length_cons,
        List.length_nil]
      norm_num
    rw [harg]
    have hfloor : ⌊((4:ℚ)/3) * 100⌋ = 133 := by
      rw [Int.floor_eq_iff]
      norm_num
    unfold round2 roundHalfEven
    rw [hfloor]
    norm_num
  have hrhs : ((sampleReview "p1" 1).overall_score + (sampleReview "p1" 1).overall_score
      + (sampleReview "p1" 2).overall_score) / 3 + MATURITY_BONUS "L0" = 4/3 := by
    simp only [sampleReview, MATURITY_BONUS, String.reduceEq, reduceIte]
    norm_num
  rw [hv, hrhs]
  norm_num

/-- C7 (amended: the sum of mean and bonus is rounded to two decimal places).
The composite score equals `round2 (mean of overall scores + maturity bonus)`;
the bonus maps L0,…,L5 to 0, 0.5, 1, 1.5, 2, 2.5 — zero at L0, 2.5 at L5,
rising by exactly 0.5 per level — and on reviews with overall scores 6 and 8 at
maturity L3 the composite score is exactly `mean(6,8) + 1.5 = 8.5` (the
rounding is the identity there). -/
theorem compute_composite_score_spec (reviews : List Review) (m : String)
    (h : reviews ≠ []) :
    compute_composite_score reviews m
        = round2 ((reviews.map (fun r => r.overall_score)).sum / (reviews.length : ℚ)
                  + MATURITY_BONUS m) ∧
    MATURITY_BONUS "L0" = 0 ∧ MATURITY_BONUS "L1" = 1/2 ∧ MATURITY_BONUS "L2" = 1 ∧
    MATURITY_BONUS "L3" = 3/2 ∧ MATURITY_BONUS "L4" = 2 ∧ MATURITY_BONUS "L5" = 5/2 ∧
    (∀ r1 r2 : Review, r1.overall_score = 6 → r2.overall_score = 8 →
      compute_composite_score [r1, r2] "L3"
        = ((6 : ℚ) + 8) / 2 + MATURITY_BONUS "L3" ∧
      compute_composite_score [r1, r2] "L3" = 17/2) := by
  refine ⟨?_,
          by simp only [MATURITY_BONUS, String.reduceEq, reduceIte],
          by simp only [MATURITY_BONUS, String.reduceEq, reduceIte],
          by simp only [MATURITY_BONUS, String.reduceEq, reduceIte],
          by simp only [MATURITY_BONUS, String.reduceEq, reduceIte],
          by simp only [MATURITY_BONUS, String.reduceEq, reduceIte],
          by simp only [MATURITY_BONUS, String.reduceEq, reduceIte], ?_⟩
  · have hne : ¬(reviews.isEmpty = true) := by simpa using h
    unfold compute_composite_score
    rw [if_neg hne]
  · intro r1 r2 h1 h2
    have heq : compute_composite_score [r1, r2] "L3" = 17/2 := by
      unfold compute_composite_score
      rw [if_neg (by simp)]
      have harg : (List.map (fun r => r.overall_score) [r1, r2]).sum
            / (([r1, r2].length : ℕ) : ℚ) + MATURITY_BONUS "L3" = 17/2 := by
        simp only [h1, h2, MATURITY_BONUS, String.reduceEq, reduceIte,
          List.map_cons, List.map_nil, List.sum_cons, List.sum_nil, List.length_cons,
          List.length_nil]
        norm_num
      rw [harg]
      have hfloor : ⌊((17:ℚ)/2) * 100⌋ = 850 := by
        rw [Int.floor_eq_iff]
        norm_num
      unfold round2 roundHalfEven
      rw [hfloor]
      norm_num
    refine ⟨?_, heq⟩
    rw [heq]
    simp only [MATURITY_BONUS, String.reduceEq, reduceIte]
    norm_num

/-- Witness for C7 on concrete reviews with scores 6 and 8. -/
theorem compute_composite_score_spec_w :
    compute_composite_score [sampleReview "p1" 6, sampleReview "p1" 8] "L3" = 17/2 := by
  exact ((compute_composite_score_spec [sampleReview "p1" 6, sampleReview "p1" 8] "L3"
    (by decide)).2.2.2.2.2.2.2 (sampleReview "p1" 6) (sampleReview "p1" 8) rfl rfl).2

/-! ## C8: badge rules -/

/-- Counterexample to C8 as stated: with zero eval-result rows, "every
eval-result score is at least 5" holds vacuously, yet the `evals and ...`
truthiness guard in `BADGE_RULES` withholds the "Rail Compliant" badge.
Concrete input: a reviewed paper with an empty `eval_results` set. -/
theorem compute_badges_rail_claim_false :
    ¬ (("Rail Compliant" ∈ compute_badges (samplePaper "p1" "accepted")
          [sampleReview "p1" 6] none [])
        ↔ (∀ e ∈ ([] : List EvalRow), (5:ℚ) ≤ e.score)) := by
  intro hiff
  have h2 : "Rail Compliant" ∈ compute_badges (samplePaper "p1" "accepted")
      [sampleReview "p1" 6] none [] := hiff.mpr (by simp)
  have h3 : ¬ ("Rail Compliant" ∈ compute_badges (samplePaper "p1" "accepted")
      [sampleReview "p1" 6] none []) := by
    simp [compute_badges, BADGE_RULES, List.mem_map, List.mem_filter, String.reduceEq]
  exact h3 h2

/-- C8 (amended: "Rail Compliant" additionally requires at least one
eval-result row, because of the `evals and ...` truthiness guard).
"L4 Certified" is awarded iff the maturity level is L4 or L5; "Red-Team
Cleared" iff a latest red-team report exists and its overall risk is "low";
"Rail Compliant" iff at least one eval result exists and every eval score is at
least 5. -/
theorem compute_badges_spec (paper : Paper) (reviews : List Review)
    (redteam : Option RedteamReport) (evals : List EvalRow) :
    ("L4 Certified" ∈ compute_badges paper reviews redteam evals ↔
        (paper.maturity_level = "L4" ∨ paper.maturity_level = "L5")) ∧
    ("Red-Team Cleared" ∈ compute_badges paper reviews redteam evals ↔
        ∃ rt, redteam = some rt ∧ rt.overall_risk = "low") ∧
    ("Rail Compliant" ∈ compute_badges paper reviews redteam evals ↔
        (evals ≠ [] ∧ ∀ e ∈ evals, (5:ℚ) ≤ e.score)) := by
  refine ⟨?_, ?_, ?_⟩
  · simp [compute_badges, BADGE_RULES, List.mem_map, List.mem_filter, String.reduceEq]
  · cases redteam <;>
      simp [compute_badges, BADGE_RULES, List.mem_map, List.mem_filter, String.reduceEq]
  · simp [compute_badges, BADGE_RULES, List.mem_map, List.mem_filter, String.reduceEq,
      List.isEmpty_iff]

/-! ## Review pipeline orchestrator (`run_full_review`) -/

/-- The flattened peer-review scores (`extract_flat_scores(peer_result)`), as
consumed by the `reviews` insert. -/
structure FlatScores where
  overall_score : ℚ
  soundness : ℚ
  novelty : ℚ
  clarity : ℚ
  significance : ℚ
  reproducibility : ℚ
  summary : String
  strengths : String
  weaknesses : String
  questions : String
  recommendation : String
  detailed_feedback : String
  maturity_level : String
  gate_analysis : String
deriving Repr, DecidableEq

/-- The structured Red Team adapter result (`redteam_paper`); `findings` and
`attack_scenarios` are carried as the JSON text the orchestrator dumps into the
row. -/
structure RedteamResult where
  overall_risk : String
  confidence_in_conclusions : ℚ
  findings : String
  attack_scenarios : String
  summary : String
deriving Repr, DecidableEq

/-- The structured Meta-Review adapter result (`meta_review`). -/
structure MetaResult where
  final_recommendation : String
  confidence : ℚ
  justification : String
  maturity_level : String
  required_changes : String
  suggested_changes : String
  summary_for_authors : String
  arena_eligible : Bool
  arena_eligibility_reason : String
deriving Repr, DecidableEq

/-- Errors surfaced by `run_full_review`: unknown paper id, or a stage adapter
raising (which aborts the remaining stages). -/
inductive RunErr where
  | notFound
  | adapterFailure
deriving Repr, DecidableEq

/-- The results dict returned by `run_full_review`. -/
structure ReviewResults where
  peer_review : FlatScores
  redteam : RedteamResult
  meta_review : MetaResult
  new_status : String
  maturity_level : String
deriving Repr, DecidableEq

/-- Fallback `model or "claude-opus"`: Python falsiness of `None` and `""`. -/
def modelOrDefault (model : Option String) : String :=
  match model with
  | some s => if s = "" then "claude-opus" else s
  | none => "claude-opus"

/-- The `reviews` row inserted by step 1 of `run_full_review`. -/
def mkReviewRow (pid : String) (flat : FlatScores) (raw now : String) : Review :=
  { paper_id := pid, reviewer_type := "ai", review_layer := "full",
    overall_score := flat.overall_score, soundness := flat.soundness,
    novelty := flat.novelty, clarity := flat.clarity,
    significance := flat.significance, reproducibility := flat.reproducibility,
    summary := flat.summary, strengths := flat.strengths,
    weaknesses := flat.weaknesses, questions := flat.questions,
    recommendation := flat.recommendation,
    detailed_feedback := flat.detailed_feedback,
    maturity_level := flat.maturity_level, gate_analysis := flat.gate_analysis,
    raw_review := raw, created_at := now }

/-- The `redteam_reports` row inserted by step 2 of `run_full_review`. -/
def mkRedteamRow (pid : String) (red : RedteamResult) (raw now : String) : RedteamReport :=
  { paper_id := pid, overall_risk := red.overall_risk,
    confidence := red.confidence_in_conclusions, findings := red.findings,
    attack_scenarios := red.attack_scenarios, summary := red.summary,
    raw_report := raw, created_at := now }

/-- The `meta_reviews` row inserted by step 3 of `run_full_review`. -/
def mkMetaRow (pid : String) (meta : MetaResult) (raw now : String) : MetaReviewRow :=
  { paper_id := pid, final_recommendation := meta.final_recommendation,
    confidence := meta.confidence, justification := meta.justification,
    maturity_level := meta.maturity_level,
    required_changes := meta.required_changes,
    suggested_changes := meta.suggested_changes,
    summary_for_authors := meta.summary_for_authors,
    arena_eligible := if meta.arena_eligible then 1 else 0,
    arena_eligibility_reason := meta.arena_eligibility_reason,
    raw_review := raw, created_at := now }

/-- Step 4 of `run_full_review`: `new_status = "revision"`, overridden to
`accepted` for recommendation `"accept"` and to `rejected` for `"reject"`. -/
def deriveNewStatus (recommendation : String) : String :=
  if recommendation = "accept" then "accepted"
  else if recommendation = "reject" then "rejected"
  else "revision"

/-- Function `run_full_review(paper_id, model)`: fetch the paper (error on unknown id);
transition `submitted → under_review`; then run Peer Review, Red Team and
Meta-Review in order, persisting each stage's row and appending its decision
record before invoking the next stage; finally persist
`(maturity_level, new_status)` in one update.  Each stage adapter is passed in
as an `Except`; a raising adapter aborts the remaining stages, leaving the
writes committed so far (first component) in place. -/
def run_full_review (pid : String) (model : Option String) (now : String)
    (hash : String → String)
    (peerStage : Except Unit (FlatScores × String))
    (redStage : Except Unit (RedteamResult × String))
    (metaStage : Except Unit (MetaResult × String))
    (db : DB) : DB × Except RunErr ReviewResults :=
  match findPaper db pid with
  | none => (db, .error .notFound)
  | some paper =>
    let db := if paper.status = "submitted" then setStatus db pid "under_review" now else db
    match peerStage with
    | .error _ => (db, .error .adapterFailure)
    | .ok (flat, peerRaw) =>
      let db := { db with reviews := db.reviews ++ [mkReviewRow pid flat peerRaw now] }
      let db := { db with dlogs := (record_decision hash now pid "peer_review"
        (modelOrDefault model) "" ("Title: " ++ paper.title)
        (flat.summary.take 500) db.dlogs).1 }
      match redStage with
      | .error _ => (db, .error .adapterFailure)
      | .ok (red, redRaw) =>
        let db := { db with
          redteam_reports := db.redteam_reports ++ [mkRedteamRow pid red redRaw now] }
        let db := { db with dlogs := (record_decision hash now pid "redteam"
          (modelOrDefault model) "" ("Title: " ++ paper.title)
          (red.summary.take 500) db.dlogs).1 }
        match metaStage with
        | .error _ => (db, .error .adapterFailure)
        | .ok (meta, metaRaw) =>
          let db := { db with
            meta_reviews := db.meta_reviews ++ [mkMetaRow pid meta metaRaw now] }
          let db := { db with dlogs := (record_decision hash now pid "meta_review"
            (modelOrDefault model) "" ("Title: " ++ paper.title)
            (meta.final_recommendation.take 500) db.dlogs).1 }
          let new_status := deriveNewStatus meta.final_recommendation
          let db := setMaturityStatus db pid meta.maturity_level new_status now
          (db, .ok { peer_review := flat, redteam := red, meta_review := meta,
                     new_status := new_status,
                     maturity_level := meta.maturity_level })

/-- The decision-log line appended for one stage of `run_full_review`. -/
def stageLogLine (hash : String → String) (now pid action : String) (model : Option String)
    (title summary : String) : String × LogLine :=
  (safeId pid, LogLine.ok (mkDecisionRecord hash now pid action
    (modelOrDefault model) "" ("Title: " ++ title) (summary.take 500)))

/-- The `submitted → under_review` entry transition of `run_full_review`. -/
def entryTransition (pid now : String) (paper : Paper) (db : DB) : DB :=
  if paper.status = "submitted" then setStatus db pid "under_review" now else db

/-- The three stage rows and three decision-log lines appended by a fully
successful `run_full_review`. -/
def appendStageRows (pid : String) (model : Option String) (now : String)
    (hash : String → String) (paper : Paper) (flat : FlatScores) (peerRaw : String)
    (red : RedteamResult) (redRaw : String) (meta : MetaResult) (metaRaw : String)
    (db : DB) : DB :=
  { db with
    reviews := db.reviews ++ [mkReviewRow pid flat peerRaw now],
    redteam_reports := db.redteam_reports ++ [mkRedteamRow pid red redRaw now],
    meta_reviews := db.meta_reviews ++ [mkMetaRow pid meta metaRaw now],
    dlogs := db.dlogs
      ++ [stageLogLine hash now pid "peer_review" model paper.title flat.summary,
          stageLogLine hash now pid "redteam" model paper.title red.summary,
          stageLogLine hash now pid "meta_review" model paper.title
            meta.final_recommendation] }

/-- Unfolded form of `run_full_review` when the paper exists and all three
stage adapters succeed. -/
theorem run_full_review_ok (db : DB) (pid : String) (paper : Paper)
    (model : Option String) (now : String) (hash : String → String)
    (flat : FlatScores) (peerRaw : String) (red : RedteamResult) (redRaw : String)
    (meta : MetaResult) (metaRaw : String)
    (h : findPaper db pid = some paper) :
    run_full_review pid model now hash (.ok (flat, peerRaw)) (.ok (red, redRaw))
        (.ok (meta, metaRaw)) db
      = (setMaturityStatus
           (appendStageRows pid model now hash paper flat peerRaw red redRaw meta
             metaRaw (entryTransition pid now paper db))
           pid meta.maturity_level (deriveNewStatus meta.final_recommendation) now,
         Except.ok { peer_review := flat, redteam := red, meta_review := meta,
                     new_status := deriveNewStatus meta.final_recommendation,
                     maturity_level := meta.maturity_level }) := by
  by_cases hs : paper.status = "submitted" <;>
    simp [run_full_review, h, hs, record_decision, setStatus, setMaturityStatus,
      stageLogLine, entryTransition, appendStageRows, List.append_assoc]

theorem findPaper_appendStageRows (pid : String) (model : Option String)
    (now : String) (hash : String → String) (paper : Paper) (flat : FlatScores)
    (peerRaw : String) (red : RedteamResult) (redRaw : String) (meta : MetaResult)
    (metaRaw : String) (db : DB) (qid : String) :
    findPaper (appendStageRows pid model now hash paper flat peerRaw red redRaw
      meta metaRaw db) qid = findPaper db qid := rfl

theorem findPaper_entryTransition (pid now : String) (paper : Paper) (db : DB)
    (p : Paper) (h : findPaper db pid = some p) :
    findPaper (entryTransition pid now paper db) pid
      = some (if paper.status = "submitted"
              then { p with status := "under_review", updated_at := now } else p) := by
  by_cases hs : paper.status = "submitted" <;>
    simp [entryTransition, hs, findPaper_setStatus, h]

/-- After a fully successful `run_full_review`, the paper row carries the
meta-review's maturity level, the derived status and the fresh timestamp. -/
theorem findPaper_after_ok (db : DB) (pid : String) (paper : Paper)
    (model : Option String) (now : String) (hash : String → String)
    (flat : FlatScores) (peerRaw : String) (red : RedteamResult) (redRaw : String)
    (meta : MetaResult) (metaRaw : String)
    (h : findPaper db pid = some paper) :
    findPaper (run_full_review pid model now hash (.ok (flat, peerRaw))
        (.ok (red, redRaw)) (.ok (meta, metaRaw)) db).1 pid
      = some { paper with maturity_level := meta.maturity_level,
                          status := deriveNewStatus meta.final_recommendation,
                          updated_at := now } := by
  rw [run_full_review_ok db pid paper model now hash flat peerRaw red redRaw meta
    metaRaw h]
  show findPaper
      (setMaturityStatus
        (appendStageRows pid model now hash paper flat peerRaw red redRaw meta
          metaRaw (entryTransition pid now paper db))
        pid meta.maturity_level (deriveNewStatus meta.final_recommendation) now)
      pid = _
  rw [findPaper_setMaturityStatus, findPaper_appendStageRows,
    findPaper_entryTransition pid now paper db paper h]
  by_cases hs : paper.status = "submitted" <;> simp [hs]

/-! ## C2: recommendation mapping -/

/-- C2. When every stage succeeds, `run_full_review` ends with the paper's
persisted status derived from the Meta-Review recommendation by exactly
`accept → accepted`, `reject → rejected`, anything else (`minor_revision`,
`major_revision`, unrecognized) `→ revision`; the maturity level and the new
status are persisted in the same single final update, together with the fresh
timestamp. -/
theorem run_full_review_recommendation_mapping (db : DB) (pid : String)
    (paper : Paper) (model : Option String) (now : String) (hash : String → String)
    (flat : FlatScores) (peerRaw : String) (red : RedteamResult) (redRaw : String)
    (meta : MetaResult) (metaRaw : String)
    (h : findPaper db pid = some paper) :
    (run_full_review pid model now hash (.ok (flat, peerRaw)) (.ok (red, redRaw))
        (.ok (meta, metaRaw)) db).2
      = Except.ok { peer_review := flat, redteam := red, meta_review := meta,
                    new_status := deriveNewStatus meta.final_recommendation,
                    maturity_level := meta.maturity_level } ∧
    findPaper (run_full_review pid model now hash (.ok (flat, peerRaw))
        (.ok (red, redRaw)) (.ok (meta, metaRaw)) db).1 pid
      = some { paper with maturity_level := meta.maturity_level,
                          status := deriveNewStatus meta.final_recommendation,
                          updated_at := now } ∧
    deriveNewStatus "accept" = "accepted" ∧
    deriveNewStatus "reject" = "rejected" ∧
    (∀ r, r ≠ "accept" → r ≠ "reject" → deriveNewStatus r = "revision") := by
  refine ⟨?_, findPaper_after_ok db pid paper model now hash flat peerRaw red redRaw
            meta metaRaw h,
          by simp [deriveNewStatus], by simp [deriveNewStatus, String.reduceEq],
          fun r h1 h2 => by simp [deriveNewStatus, h1, h2]⟩
  rw [run_full_review_ok db pid paper model now hash flat peerRaw red redRaw meta
    metaRaw h]

def sampleFlat : FlatScores :=
  { overall_score := 7, soundness := 4, novelty := 4, clarity := 3,
    significance := 3, reproducibility := 3, summary := "good", strengths := "",
    weaknesses := "", questions := "", recommendation := "accept",
    detailed_feedback := "", maturity_level := "L3", gate_analysis := "" }

def sampleRed : RedteamResult :=
  { overall_risk := "low", confidence_in_conclusions := 1/2, findings := "[]",
    attack_scenarios := "[]", summary := "ok" }

def sampleMeta (recommendation : String) : MetaResult :=
  { final_recommendation := recommendation, confidence := 1/2,
    justification := "", maturity_level := "L3", required_changes := "[]",
    suggested_changes := "[]", summary_for_authors := "",
    arena_eligible := true, arena_eligibility_reason := "" }

/-- Witness for C2 at a concrete store and adapter outputs: recommendation
`"accept"` yields returned and persisted status `accepted`. -/
theorem run_full_review_recommendation_mapping_w :
    (run_full_review "p1" none "t1" (fun s => s) (.ok (sampleFlat, "raw"))
        (.ok (sampleRed, "raw")) (.ok (sampleMeta "accept", "raw"))
        (dbOnePaper "under_review")).2
      = Except.ok { peer_review := sampleFlat, redteam := sampleRed,
                    meta_review := sampleMeta "accept", new_status := "accepted",
                    maturity_level := "L3" } ∧
    (findPaper (run_full_review "p1" none "t1" (fun s => s) (.ok (sampleFlat, "raw"))
        (.ok (sampleRed, "raw")) (.ok (sampleMeta "accept", "raw"))
        (dbOnePaper "under_review")).1 "p1").map Paper.status = some "accepted" := by
  have h := run_full_review_recommendation_mapping (dbOnePaper "under_review") "p1"
    (samplePaper "p1" "under_review") none "t1" (fun s => s) sampleFlat "raw"
    sampleRed "raw" (sampleMeta "accept") "raw" (by decide)
  refine ⟨?_, ?_⟩
  · rw [h.1]
    simp [sampleMeta, deriveNewStatus, String.reduceEq, reduceIte]
  · rw [h.2.1]
    simp [sampleMeta, deriveNewStatus, String.reduceEq, reduceIte]

/-! ## C3: partial failure at the Red Team stage -/

/-- Unfolded form of `run_full_review` when the paper exists, the Peer Review
stage succeeds and the Red Team adapter raises. -/
theorem run_full_review_redfail (db : DB) (pid : String) (paper : Paper)
    (model : Option String) (now : String) (hash : String → String)
    (flat : FlatScores) (peerRaw : String)
    (metaStage : Except Unit (MetaResult × String))
    (h : findPaper db pid = some paper) :
    run_full_review pid model now hash (.ok (flat, peerRaw)) (.error ()) metaStage db
      = ({ entryTransition pid now paper db with
            reviews := (entryTransition pid now paper db).reviews
              ++ [mkReviewRow pid flat peerRaw now],
            dlogs := (entryTransition pid now paper db).dlogs
              ++ [stageLogLine hash now pid "peer_review" model paper.title
                    flat.summary] },
         Except.error RunErr.adapterFailure) := by
  by_cases hs : paper.status = "submitted" <;>
    simp [run_full_review, h, hs, record_decision, setStatus, entryTransition,
      stageLogLine]

/-- C3. If the Red Team adapter raises during `run_full_review` on a paper that
was `submitted` or `under_review`, then afterwards: the call reports the stage
failure; the Peer Review row and its `peer_review` decision record are
persisted (and are the only additions to the review table and to the paper's
decision log); no Red-Team Report row and no Meta-Review row were added; and
the paper's status is `under_review` — the final status update never ran. -/
theorem run_full_review_redteam_failure (db : DB) (pid : String) (paper : Paper)
    (model : Option String) (now : String) (hash : String → String)
    (flat : FlatScores) (peerRaw : String)
    (metaStage : Except Unit (MetaResult × String))
    (h : findPaper db pid = some paper)
    (hst : paper.status = "submitted" ∨ paper.status = "under_review") :
    (run_full_review pid model now hash (.ok (flat, peerRaw)) (.error ())
        metaStage db).2 = Except.error RunErr.adapterFailure ∧
    (run_full_review pid model now hash (.ok (flat, peerRaw)) (.error ())
        metaStage db).1.reviews
      = db.reviews ++ [mkReviewRow pid flat peerRaw now] ∧
    get_decisions (run_full_review pid model now hash (.ok (flat, peerRaw))
        (.error ()) metaStage db).1.dlogs pid
      = get_decisions db.dlogs pid
        ++ [mkDecisionRecord hash now pid "peer_review" (modelOrDefault model) ""
              ("Title: " ++ paper.title) (flat.summary.take 500)] ∧
    (run_full_review pid model now hash (.ok (flat, peerRaw)) (.error ())
        metaStage db).1.redteam_reports = db.redteam_reports ∧
    (run_full_review pid model now hash (.ok (flat, peerRaw)) (.error ())
        metaStage db).1.meta_reviews = db.meta_reviews ∧
    (findPaper (run_full_review pid model now hash (.ok (flat, peerRaw))
        (.error ()) metaStage db).1 pid).map Paper.status = some "under_review" := by
  rw [run_full_review_redfail db pid paper model now hash flat peerRaw metaStage h]
  have hcases : ∀ q : DB, q = entryTransition pid now paper db →
      q.reviews = db.reviews ∧ q.dlogs = db.dlogs ∧
      q.redteam_reports = db.redteam_reports ∧ q.meta_reviews = db.meta_reviews := by
    intro q hq
    by_cases hs : paper.status = "submitted" <;>
      simp [hq, entryTransition, hs, setStatus]
  obtain ⟨hrev, hlog, hred, hmeta⟩ := hcases _ rfl
  refine ⟨rfl, ?_, ?_, ?_, ?_, ?_⟩
  · show (entryTransition pid now paper db).reviews ++ _ = _
    rw [hrev]
  · show get_decisions ((entryTransition pid now paper db).dlogs ++ _) pid = _
    rw [hlog, get_decisions_append]
    simp [get_decisions, parseLine, stageLogLine]
  · exact hred
  · exact hmeta
  · show (findPaper (entryTransition pid now paper db) pid).map Paper.status = _
    rw [findPaper_entryTransition pid now paper db paper h]
    rcases hst with hs | hs <;> simp [hs]

/-- Witness for C3 at a concrete store: adapter failure reported, peer row
present, red-team/meta tables untouched, status `under_review`. -/
theorem run_full_review_redteam_failure_w :
    (run_full_review "p1" none "t1" (fun s => s) (.ok (sampleFlat, "raw"))
        (.error ()) (.ok (sampleMeta "accept", "raw")) (dbOnePaper "submitted")).2
      = Except.error RunErr.adapterFailure ∧
    (run_full_review "p1" none "t1" (fun s => s) (.ok (sampleFlat, "raw"))
        (.error ()) (.ok (sampleMeta "accept", "raw")) (dbOnePaper "submitted")).1.meta_reviews
      = [] ∧
    (findPaper (run_full_review "p1" none "t1" (fun s => s) (.ok (sampleFlat, "raw"))
        (.error ()) (.ok (sampleMeta "accept", "raw")) (dbOnePaper "submitted")).1
        "p1").map Paper.status = some "under_review" := by
  have h := run_full_review_redteam_failure (dbOnePaper "submitted") "p1"
    (samplePaper "p1" "submitted") none "t1" (fun s => s) sampleFlat "raw"
    (.ok (sampleMeta "accept", "raw")) (by decide) (Or.inl (by decide))
  exact ⟨h.1, h.2.2.2.2.1, h.2.2.2.2.2⟩

/-! ## C4: idempotent entry and appended rows across two runs -/

theorem deriveNewStatus_ne_submitted (r : String) :
    deriveNewStatus r ≠ "submitted" := by
  unfold deriveNewStatus
  split_ifs <;> decide

/-- The row tables appended by a fully successful `run_full_review`. -/
theorem rows_after_ok (db : DB) (pid : String) (paper : Paper)
    (model : Option String) (now : String) (hash : String → String)
    (flat : FlatScores) (peerRaw : String) (red : RedteamResult) (redRaw : String)
    (meta : MetaResult) (metaRaw : String)
    (h : findPaper db pid = some paper) :
    (run_full_review pid model now hash (.ok (flat, peerRaw)) (.ok (red, redRaw))
        (.ok (meta, metaRaw)) db).1.reviews
      = db.reviews ++ [mkReviewRow pid flat peerRaw now] ∧
    (run_full_review pid model now hash (.ok (flat, peerRaw)) (.ok (red, redRaw))
        (.ok (meta, metaRaw)) db).1.redteam_reports
      = db.redteam_reports ++ [mkRedteamRow pid red redRaw now] ∧
    (run_full_review pid model now hash (.ok (flat, peerRaw)) (.ok (red, redRaw))
        (.ok (meta, metaRaw)) db).1.meta_reviews
      = db.meta_reviews ++ [mkMetaRow pid meta metaRaw now] := by
  rw [run_full_review_ok db pid paper model now hash flat peerRaw red redRaw meta
    metaRaw h]
  by_cases hs : paper.status = "submitted" <;>
    simp [setMaturityStatus, appendStageRows, entryTransition, hs, setStatus]

/-- C4. On a paper whose status is `submitted`, two successive fully successful
`run_full_review` calls perform the `submitted → under_review` entry update
exactly once: the first call (whose guard sees `submitted`) leaves the paper in
the derived status — never `submitted`, so the second call's entry guard sees a
non-submitted status and skips that update — and the two calls append their
Review, Red-Team and Meta-Review rows one after the other, overwriting
nothing. -/
theorem run_full_review_idempotent_entry (db : DB) (pid : String) (paper : Paper)
    (model : Option String) (now1 now2 : String) (hash : String → String)
    (flat1 flat2 : FlatScores) (praw1 praw2 : String)
    (red1 red2 : RedteamResult) (rraw1 rraw2 : String)
    (meta1 meta2 : MetaResult) (mraw1 mraw2 : String)
    (h : findPaper db pid = some paper) (_hst : paper.status = "submitted") :
    (∀ r, deriveNewStatus r ≠ "submitted") ∧
    (findPaper (run_full_review pid model now1 hash (.ok (flat1, praw1))
        (.ok (red1, rraw1)) (.ok (meta1, mraw1)) db).1 pid).map Paper.status
      = some (deriveNewStatus meta1.final_recommendation) ∧
    (run_full_review pid model now2 hash (.ok (flat2, praw2)) (.ok (red2, rraw2))
        (.ok (meta2, mraw2))
        (run_full_review pid model now1 hash (.ok (flat1, praw1)) (.ok (red1, rraw1))
          (.ok (meta1, mraw1)) db).1).1.reviews
      = db.reviews
        ++ [mkReviewRow pid flat1 praw1 now1, mkReviewRow pid flat2 praw2 now2] ∧
    (run_full_review pid model now2 hash (.ok (flat2, praw2)) (.ok (red2, rraw2))
        (.ok (meta2, mraw2))
        (run_full_review pid model now1 hash (.ok (flat1, praw1)) (.ok (red1, rraw1))
          (.ok (meta1, mraw1)) db).1).1.redteam_reports
      = db.redteam_reports
        ++ [mkRedteamRow pid red1 rraw1 now1, mkRedteamRow pid red2 rraw2 now2] ∧
    (run_full_review pid model now2 hash (.ok (flat2, praw2)) (.ok (red2, rraw2))
        (.ok (meta2, mraw2))
        (run_full_review pid model now1 hash (.ok (flat1, praw1)) (.ok (red1, rraw1))
          (.ok (meta1, mraw1)) db).1).1.meta_reviews
      = db.meta_reviews
        ++ [mkMetaRow pid meta1 mraw1 now1, mkMetaRow pid meta2 mraw2 now2] := by
  have hfind1 := findPaper_after_ok db pid paper model now1 hash flat1 praw1 red1
    rraw1 meta1 mraw1 h
  have hrows1 := rows_after_ok db pid paper model now1 hash flat1 praw1 red1
    rraw1 meta1 mraw1 h
  have hrows2 := rows_after_ok _ pid _ model now2 hash flat2 praw2 red2
    rraw2 meta2 mraw2 hfind1
  refine ⟨deriveNewStatus_ne_submitted, by rw [hfind1]; rfl, ?_, ?_, ?_⟩
  · rw [hrows2.1, hrows1.1, List.append_assoc]
    rfl
  · rw [hrows2.2.1, hrows1.2.1, List.append_assoc]
    rfl
  · rw [hrows2.2.2, hrows1.2.2, List.append_assoc]
    rfl

/-- Witness for C4 at a concrete store: after two successful runs on a paper
starting `submitted`, both review rows are present in order and the status
observed by the second call is not `submitted`. -/
theorem run_full_review_idempotent_entry_w :
    (run_full_review "p1" none "t2" (fun s => s) (.ok (sampleFlat, "r2"))
        (.ok (sampleRed, "r2")) (.ok (sampleMeta "reject", "r2"))
        (run_full_review "p1" none "t1" (fun s => s) (.ok (sampleFlat, "r1"))
          (.ok (sampleRed, "r1")) (.ok (sampleMeta "accept", "r1"))
          (dbOnePaper "submitted")).1).1.reviews
      = [mkReviewRow "p1" sampleFlat "r1" "t1", mkReviewRow "p1" sampleFlat "r2" "t2"] ∧
    (findPaper (run_full_review "p1" none "t1" (fun s => s) (.ok (sampleFlat, "r1"))
        (.ok (sampleRed, "r1")) (.ok (sampleMeta "accept", "r1"))
        (dbOnePaper "submitted")).1 "p1").map Paper.status = some "accepted" := by
  have h := run_full_review_idempotent_entry (dbOnePaper "submitted") "p1"
    (samplePaper "p1" "submitted") none "t1" "t2" (fun s => s) sampleFlat sampleFlat
    "r1" "r2" sampleRed sampleRed "r1" "r2" (sampleMeta "accept")
    (sampleMeta "reject") "r1" "r2" (by decide) (by decide)
  refine ⟨?_, ?_⟩
  · rw [h.2.2.1]
    rfl
  · rw [h.2.1]
    simp [sampleMeta, deriveNewStatus, String.reduceEq, reduceIte]

/-! ## End-to-end pipeline (`run_full_pipeline`) -/

/-- The structured idea produced by the ideation sub-pipeline. -/
structure Idea where
  title : String
  description : String
  keywords : List String
deriving Repr, DecidableEq

/-- The `sections` value returned by `compose_full_paper`: either a dict of
section name → content, or a list of `{name, content}` items (the source
handles both shapes when extracting the abstract). -/
inductive Sections where
  | dict (kvs : List (String × String))
  | arr (items : List (String × String))
deriving Repr, DecidableEq

/-- The abstract-extraction logic of the Publish phase: take the `abstract`
section (dict lookup with the idea description as default; first matching item
for the list shape), falling back to the idea description when empty. -/
def abstract_text (sections : Sections) (idea : Idea) : String :=
  let a0 := match sections with
    | .dict kvs => (kvs.lookup "abstract").getD idea.description
    | .arr items => (items.lookup "abstract").getD ""
  if a0 = "" then idea.description else a0

/-- The `papers` row inserted by the Publish phase (status `submitted`;
`maturity_level`, `version`, `tex_path` take their schema defaults). -/
def publishedRow (authors : String) (idea : Idea) (sections : Sections)
    (paper_md newPid now : String) : Paper :=
  { paper_id := newPid, title := idea.title, authors := authors,
    affiliation := "NextGen PlatformAI C Corp",
    abstract := abstract_text sections idea,
    keywords := String.intercalate ", " idea.keywords,
    categories := "", full_text := paper_md, pdf_path := "", tex_path := "",
    status := "submitted", maturity_level := "L0", version := 1,
    created_at := now, updated_at := now }

/-- Phase 2 (PUBLISH) of `run_full_pipeline`: insert the paper row with the
freshly generated id, then append the `full_pipeline_submit` decision record. -/
def publishDB (topic authors : String) (idea : Idea) (sections : Sections)
    (paper_md newPid now : String) (hash : String → String) (db : DB) : DB :=
  let db := { db with
    papers := db.papers ++ [publishedRow authors idea sections paper_md newPid now] }
  { db with dlogs := (record_decision hash now newPid "full_pipeline_submit"
      "system" "" ("Topic: " ++ topic)
      ("Paper " ++ newPid ++ " created from full pipeline") db.dlogs).1 }

/-- Errors surfaced by `run_full_pipeline`: a failing phase aborts the run. -/
inductive PipeErr where
  | ideaFailure
  | noveltyFailure
  | methodFailure
  | composeFailure
  | reviewFailure (e : RunErr)
  | revisionFailure
deriving Repr, DecidableEq

/-- The results bundle of a fully successful `run_full_pipeline`. -/
structure PipelineResult where
  paper_id : String
  review : ReviewResults
  revision_suggestions : List String
deriving Repr, DecidableEq

/-- Function `run_full_pipeline(topic, authors)`: idea → novelty → methodology →
composition (all external, no persistence), then Publish (insert the paper,
status `submitted`), then the in-core review pipeline on the fresh id, then
revision-suggestion generation (external, no persistence).  The progress
callback only emits events and is not part of the persistent state. -/
def run_full_pipeline (topic authors : String)
    (ideaStage : Except Unit Idea) (noveltyStage : Except Unit String)
    (methodStage : Except Unit String)
    (composeStage : Except Unit (Sections × String))
    (newPid now : String) (hash : String → String)
    (peerStage : Except Unit (FlatScores × String))
    (redStage : Except Unit (RedteamResult × String))
    (metaStage : Except Unit (MetaResult × String))
    (revisionStage : Except Unit (List String))
    (db : DB) : DB × Except PipeErr PipelineResult :=
  match ideaStage with
  | .error _ => (db, .error .ideaFailure)
  | .ok idea =>
    match noveltyStage with
    | .error _ => (db, .error .noveltyFailure)
    | .ok _ =>
      match methodStage with
      | .error _ => (db, .error .methodFailure)
      | .ok _ =>
        match composeStage with
        | .error _ => (db, .error .composeFailure)
        | .ok (sections, paper_md) =>
          let db := publishDB topic authors idea sections paper_md newPid now hash db
          match run_full_review newPid none now hash peerStage redStage metaStage db with
          | (db2, .error e) => (db2, .error (.reviewFailure e))
          | (db2, .ok review) =>
            match revisionStage with
            | .error _ => (db2, .error .revisionFailure)
            | .ok suggestions =>
              (db2, .ok { paper_id := newPid, review := review,
                          revision_suggestions := suggestions })

theorem find_append_of_none (l₁ l₂ : List Paper) (p : Paper → Bool)
    (h : l₁.find? p = none) : (l₁ ++ l₂).find? p = l₂.find? p := by
  induction l₁ with
  | nil => simp
  | cons a l ih =>
    rw [List.find?_cons] at h
    rcases hb : p a with _ | _
    · rw [hb] at h
      simpa [List.find?_cons, hb] using ih h
    · rw [hb] at h
      simp at h

/-- C9. In `run_full_pipeline`: a failure in idea generation, novelty check,
methodology or composition propagates to the caller with the store exactly as
before the call — no paper row is persisted; when all pre-publish phases
succeed, the Publish phase inserts the paper row with the fresh id and status
`submitted`, and the resulting store is exactly the one produced by running
`run_full_review` on that freshly created id against the published store (the
revision-suggestion phase writes nothing). -/
theorem run_full_pipeline_spec (topic authors : String)
    (noveltyStage methodStage : Except Unit String)
    (composeStage : Except Unit (Sections × String)) (newPid now : String)
    (hash : String → String)
    (peerStage : Except Unit (FlatScores × String))
    (redStage : Except Unit (RedteamResult × String))
    (metaStage : Except Unit (MetaResult × String))
    (revisionStage : Except Unit (List String)) (db : DB)
    (hfresh : findPaper db newPid = none) :
    run_full_pipeline topic authors (.error ()) noveltyStage methodStage
        composeStage newPid now hash peerStage redStage metaStage revisionStage db
      = (db, .error .ideaFailure) ∧
    (∀ idea, run_full_pipeline topic authors (.ok idea) (.error ()) methodStage
        composeStage newPid now hash peerStage redStage metaStage revisionStage db
      = (db, .error .noveltyFailure)) ∧
    (∀ idea nv, run_full_pipeline topic authors (.ok idea) (.ok nv) (.error ())
        composeStage newPid now hash peerStage redStage metaStage revisionStage db
      = (db, .error .methodFailure)) ∧
    (∀ idea nv mm, run_full_pipeline topic authors (.ok idea) (.ok nv) (.ok mm)
        (.error ()) newPid now hash peerStage redStage metaStage revisionStage db
      = (db, .error .composeFailure)) ∧
    (∀ idea nv mm sections paper_md,
      findPaper (publishDB topic authors idea sections paper_md newPid now hash db)
          newPid
        = some (publishedRow authors idea sections paper_md newPid now) ∧
      (publishedRow authors idea sections paper_md newPid now).status = "submitted" ∧
      (run_full_pipeline topic authors (.ok idea) (.ok nv) (.ok mm)
          (.ok (sections, paper_md)) newPid now hash peerStage redStage metaStage
          revisionStage db).1
        = (run_full_review newPid none now hash peerStage redStage metaStage
            (publishDB topic authors idea sections paper_md newPid now hash db)).1) := by
  refine ⟨rfl, fun _ => rfl, fun _ _ => rfl, fun _ _ _ => rfl,
          fun idea nv mm sections paper_md => ⟨?_, rfl, ?_⟩⟩
  · show List.find? _ (db.papers ++ [publishedRow authors idea sections paper_md newPid now]) = _
    rw [find_append_of_none db.papers _ _ hfresh]
    simp [publishedRow]
  · rcases hr : run_full_review newPid none now hash peerStage redStage metaStage
        (publishDB topic authors idea sections paper_md newPid now hash db)
      with ⟨db2, res⟩
    cases res <;> cases revisionStage <;> simp [run_full_pipeline, hr]

/-- Witness for C9: on an empty store, an idea-phase failure leaves the store
empty, and with everything succeeding the published row is found under the
fresh id with status `submitted`. -/
theorem run_full_pipeline_spec_w :
    run_full_pipeline "T" "AI Scientist" (.error ()) (.ok "nv") (.ok "mm")
        (.ok (Sections.dict [("abstract", "A")], "md")) "aiXiv:2501.006" "t1"
        (fun s => s) (.ok (sampleFlat, "r")) (.ok (sampleRed, "r"))
        (.ok (sampleMeta "accept", "r")) (.ok []) emptyDB
      = (emptyDB, Except.error PipeErr.ideaFailure) ∧
    findPaper (publishDB "T" "AI Scientist" ⟨"TI", "D", []⟩
        (Sections.dict [("abstract", "A")]) "md" "aiXiv:2501.006" "t1"
        (fun s => s) emptyDB) "aiXiv:2501.006"
      = some (publishedRow "AI Scientist" ⟨"TI", "D", []⟩
          (Sections.dict [("abstract", "A")]) "md" "aiXiv:2501.006" "t1") := by
  have h := run_full_pipeline_spec "T" "AI Scientist" (.ok "nv") (.ok "mm")
    (.ok (Sections.dict [("abstract", "A")], "md")) "aiXiv:2501.006" "t1"
    (fun s => s) (.ok (sampleFlat, "r")) (.ok (sampleRed, "r"))
    (.ok (sampleMeta "accept", "r")) (.ok []) emptyDB (by decide)
  exact ⟨h.1, (h.2.2.2.2 ⟨"TI", "D", []⟩ "nv" "mm"
    (Sections.dict [("abstract", "A")]) "md").1⟩

end AiXiv
